import Mathlib

/-!
# Shallow embedding of the daihao-C trading core

This file embeds, in Lean 4, the decision logic of the daihao-C trading
system that the verified claims concern:

* `data_fetcher.py` — the `MarketData` candle record, its derived fields,
  its (broken) constructor, and the kline-conversion step of `get_klines`;
* `risk_manager.py` — `RiskManager` (PnL accounting, drawdown high-water
  mark, circuit breaker) and `ExecutionGate.check`;
* `position_manager.py` — `Position.calculate_pnl` and
  `PositionManager.close_position`;
* `fvg_signal.py` — `FVG.is_active`, `LiquidityZone` strength updates;
* `fvg_strategy.py` — `FVGStrategy.validate_fvg`;
* `liquidity_analyzer.py` — swing-point detection and
  `identify_buyside_liquidity` including its zone merge;
* `multi_timeframe_analyzer.py` — `detect_confluence` and
  `_calculate_weighted_score`.

Python floats are modelled by `ℚ` (all claims are about exact arithmetic
relations), timestamps by `ℤ` milliseconds, and Python runtime failures
(`NameError`, `AttributeError`, `TypeError`, `ZeroDivisionError`) by an
`Except PyErr` result.  Mutating methods are modelled as state-passing
functions; `datetime.now()` becomes an explicit `now : ℤ` argument.
-/

namespace Daihao

/-- Python runtime errors raised by the embedded code paths. -/
inductive PyErr where
  | nameError (missing : String)
  | attributeError (attr : String)
  | typeError (msg : String)
  | zeroDivisionError
deriving DecidableEq, Repr

/-! ## data_fetcher.py : MarketData -/

/-- A dynamic Python value, as it appears in the local scope of
`MarketData.__init__`. -/
inductive PyVal where
  | str (s : String)
  | int (i : ℤ)
  | num (q : ℚ)
deriving DecidableEq, Repr

/-- The `MarketData` record (data_fetcher.py lines 14-35).  The source field
`self.open` is called `open_price` here because `open` is a Lean keyword. -/
structure MarketData where
  symbol : String
  timeframe : String
  open_time : ℤ
  open_price : ℚ
  high : ℚ
  low : ℚ
  close : ℚ
  volume : ℚ
  close_time : ℤ
deriving DecidableEq, Repr

/-- The local scope of `MarketData.__init__`: its parameters.  Note that the
constructor's parameters are `open_price` and `close` (NOT `close_price`). -/
def marketDataScope (symbol timeframe : String) (open_time : ℤ)
    (open_price high low close volume : ℚ) (close_time : ℤ) :
    List (String × PyVal) :=
  [("symbol", .str symbol), ("timeframe", .str timeframe),
   ("open_time", .int open_time), ("open_price", .num open_price),
   ("high", .num high), ("low", .num low), ("close", .num close),
   ("volume", .num volume), ("close_time", .int close_time)]

/-- Python name resolution: an identifier not bound in scope raises
`NameError`. -/
def lookupName (scope : List (String × PyVal)) (x : String) :
    Except PyErr PyVal :=
  match scope.lookup x with
  | some v => .ok v
  | none => .error (.nameError x)

/-- `MarketData.__init__` (data_fetcher.py lines 17-35), assignment by
assignment.  Line 33 of the source reads `self.close = close_price`, and
`close_price` is not a parameter (the parameter is `close`), so that name
lookup fails. -/
def marketDataInit (symbol timeframe : String) (open_time : ℤ)
    (open_price high low close volume : ℚ) (close_time : ℤ) :
    Except PyErr MarketData := do
  let scope := marketDataScope symbol timeframe open_time open_price high low
    close volume close_time
  let _ ← lookupName scope "symbol"        -- self.symbol = symbol
  let _ ← lookupName scope "timeframe"     -- self.timeframe = timeframe
  let _ ← lookupName scope "open_time"     -- self.open_time = open_time
  let _ ← lookupName scope "open_price"    -- self.open = open_price
  let _ ← lookupName scope "high"          -- self.high = high
  let _ ← lookupName scope "low"           -- self.low = low
  let cval ← lookupName scope "close_price"  -- self.close = close_price
  let _ ← lookupName scope "volume"        -- self.volume = volume
  let _ ← lookupName scope "close_time"    -- self.close_time = close_time
  pure { symbol := symbol, timeframe := timeframe, open_time := open_time,
         open_price := open_price, high := high, low := low,
         close := (match cval with | .num q => q | _ => 0),
         volume := volume, close_time := close_time }

/-- One raw kline row as returned by the venue, already parsed to numbers
(the source applies `float(...)` to the string entries). -/
structure RawKline where
  open_time : ℤ
  o : ℚ
  h : ℚ
  l : ℚ
  c : ℚ
  v : ℚ
  close_time : ℤ
deriving DecidableEq, Repr

/-- The conversion loop of `DataFetcher.get_klines` (data_fetcher.py lines
163-176): each raw row is turned into a `MarketData` via the constructor,
appending to the result list; a raised error propagates.  The surrounding
retry wrapper re-raises after its attempts, so the fetch result is exactly
this conversion's result. -/
def fetchKlines (symbol interval : String) :
    List RawKline → Except PyErr (List MarketData)
  | [] => .ok []
  | k :: ks =>
    match marketDataInit symbol interval k.open_time k.o k.h k.l k.c k.v
        k.close_time with
    | .error e => .error e
    | .ok c =>
      match fetchKlines symbol interval ks with
      | .error e => .error e
      | .ok rest => .ok (c :: rest)

/-- `MarketData.body_size` (data_fetcher.py lines 37-40). -/
def MarketData.body_size (c : MarketData) : ℚ := |c.close - c.open_price|

/-- `MarketData.upper_wick` (data_fetcher.py lines 42-45). -/
def MarketData.upper_wick (c : MarketData) : ℚ :=
  c.high - max c.open_price c.close

/-- `MarketData.lower_wick` (data_fetcher.py lines 47-50). -/
def MarketData.lower_wick (c : MarketData) : ℚ :=
  min c.open_price c.close - c.low

/-- `MarketData.range_size` (data_fetcher.py lines 52-55). -/
def MarketData.range_size (c : MarketData) : ℚ := c.high - c.low

/-! ## risk_manager.py : RiskManager -/

/-- `CircuitBreakerState` (risk_manager.py lines 13-17). -/
inductive CircuitBreakerState where
  | NORMAL
  | PAUSED
  | TRIGGERED
deriving DecidableEq, Repr

/-- `RiskMetrics` (risk_manager.py lines 20-33).  The source fields
`_total_win_amount` / `_total_loss_amount` are named without the leading
underscore here. -/
structure RiskMetrics where
  total_trades : ℕ := 0
  winning_trades : ℕ := 0
  losing_trades : ℕ := 0
  total_pnl : ℚ := 0
  max_drawdown : ℚ := 0
  consecutive_losses : ℕ := 0
  max_consecutive_losses : ℕ := 0
  avg_win : ℚ := 0
  avg_loss : ℚ := 0
  total_win_amount : ℚ := 0
  total_loss_amount : ℚ := 0
deriving DecidableEq, Repr

/-- The constructor parameters of `RiskManager` (risk_manager.py lines
39-53), with their source defaults. -/
structure RiskConfig where
  max_drawdown_percent : ℚ := 5
  max_consecutive_losses : ℕ := 3
  daily_loss_limit : ℚ := 30
deriving DecidableEq, Repr

/-- The mutable state of a `RiskManager` (risk_manager.py lines 55-64).
`equity_curve` stores `(timestamp, balance)` pairs. -/
structure RiskManagerState where
  metrics : RiskMetrics := {}
  circuit_breaker_state : CircuitBreakerState := .NORMAL
  circuit_breaker_time : Option ℤ := none
  daily_start_time : ℤ := 0
  daily_pnl : ℚ := 0
  equity_curve : List (ℤ × ℚ) := []
  initial_balance : ℚ := 0
deriving DecidableEq, Repr

/-- `RiskManager.__init__`'s state initialisation. -/
def initRiskManager (now : ℤ) : RiskManagerState :=
  { daily_start_time := now }

/-- `RiskManager.set_initial_balance` (risk_manager.py lines 66-69). -/
def set_initial_balance (now : ℤ) (balance : ℚ) (st : RiskManagerState) :
    RiskManagerState :=
  { st with initial_balance := balance,
            equity_curve := st.equity_curve ++ [(now, balance)] }

/-- `max([b for _, b in self.equity_curve] + [current_balance])`
(risk_manager.py line 103): the maximum of the recorded balances and the
current balance. -/
def peakEquity (curve : List (ℤ × ℚ)) (current : ℚ) : ℚ :=
  (curve.map Prod.snd).foldl max current

/-- `RiskManager._trigger_circuit_breaker` (risk_manager.py lines 132-136). -/
def trigger_circuit_breaker (now : ℤ) (st : RiskManagerState) :
    RiskManagerState :=
  { st with circuit_breaker_state := .TRIGGERED,
            circuit_breaker_time := some now }

/-- `RiskManager._check_circuit_breaker` (risk_manager.py lines 113-130):
three trip conditions evaluated in order. -/
def check_circuit_breaker (cfg : RiskConfig) (now : ℤ)
    (st : RiskManagerState) : RiskManagerState :=
  if cfg.max_drawdown_percent ≤ st.metrics.max_drawdown then
    trigger_circuit_breaker now st
  else if cfg.max_consecutive_losses ≤ st.metrics.consecutive_losses then
    trigger_circuit_breaker now st
  else if st.daily_pnl ≤ -cfg.daily_loss_limit then
    trigger_circuit_breaker now st
  else st

/-- The win/loss branch of `RiskManager.update_pnl` (risk_manager.py lines
84-93): update the trade counters, the consecutive-loss streak and its
historical maximum, and the running win/loss totals. -/
def update_pnl_streaks (m : RiskMetrics) (pnl : ℚ) : RiskMetrics :=
  if 0 < pnl then
    { m with winning_trades := m.winning_trades + 1,
             consecutive_losses := 0,
             total_win_amount := m.total_win_amount + pnl }
  else
    let m := { m with losing_trades := m.losing_trades + 1,
                      consecutive_losses := m.consecutive_losses + 1 }
    let m :=
      if m.max_consecutive_losses < m.consecutive_losses then
        { m with max_consecutive_losses := m.consecutive_losses }
      else m
    { m with total_loss_amount := m.total_loss_amount + |pnl| }

/-- `RiskManager.update_pnl` (risk_manager.py lines 71-111), statement by
statement. -/
def update_pnl (cfg : RiskConfig) (now : ℤ) (pnl : ℚ)
    (st : RiskManagerState) : RiskManagerState :=
  -- self.metrics.total_pnl += pnl; self.daily_pnl += pnl
  let m := { st.metrics with total_pnl := st.metrics.total_pnl + pnl }
  let st := { st with daily_pnl := st.daily_pnl + pnl }
  -- self.metrics.total_trades += 1
  let m := { m with total_trades := m.total_trades + 1 }
  -- win / loss branch
  let m := update_pnl_streaks m pnl
  -- running averages
  let m := { m with
    avg_win := if 0 < m.winning_trades then
                 m.total_win_amount / (m.winning_trades : ℚ) else 0,
    avg_loss := if 0 < m.losing_trades then
                 m.total_loss_amount / (m.losing_trades : ℚ) else 0 }
  -- drawdown high-water mark
  let current_balance := st.initial_balance + m.total_pnl
  let peak := peakEquity st.equity_curve current_balance
  let drawdown := if 0 < peak then (peak - current_balance) / peak * 100 else 0
  let m := { m with max_drawdown := max m.max_drawdown drawdown }
  let st := { st with metrics := m,
                      equity_curve := st.equity_curve ++ [(now, current_balance)] }
  check_circuit_breaker cfg now st

/-- `RiskManager.reset_circuit_breaker` (risk_manager.py lines 138-143). -/
def reset_circuit_breaker (now : ℤ) (st : RiskManagerState) :
    RiskManagerState :=
  { st with circuit_breaker_state := .NORMAL,
            circuit_breaker_time := none,
            daily_pnl := 0,
            daily_start_time := now }

/-- The reason strings returned by `RiskManager.is_allowed_to_trade`,
as structured data (the source formats them into Chinese text). -/
inductive TradeBlockReason where
  /-- "允许交易" -/
  | allowed
  /-- "熔断状态，剩余 X 分钟" -/
  | circuit_breaker_active (remaining_minutes : ℚ)
  /-- "每日亏损已达限制 X USDT" -/
  | daily_loss_reached (limit : ℚ)
  /-- "连续亏损 X 次" -/
  | consecutive_loss_reached (count : ℕ)
deriving DecidableEq, Repr

/-- The tail of `is_allowed_to_trade` after the circuit-breaker block
(risk_manager.py lines 161-169): daily-loss check, consecutive-loss check,
then permission. -/
def allowed_after_breaker (cfg : RiskConfig) (st : RiskManagerState) :
    RiskManagerState × Bool × TradeBlockReason :=
  if st.daily_pnl ≤ -cfg.daily_loss_limit then
    (st, false, .daily_loss_reached cfg.daily_loss_limit)
  else if cfg.max_consecutive_losses ≤ st.metrics.consecutive_losses then
    (st, false, .consecutive_loss_reached st.metrics.consecutive_losses)
  else
    (st, true, .allowed)

/-- `RiskManager.is_allowed_to_trade` (risk_manager.py lines 145-169).
The call can mutate the manager (auto-reset), so it returns the new state
together with the `(bool, reason)` pair.  The cooldown test is strict:
`(now - circuit_breaker_time) > timedelta(minutes=30)`. -/
def is_allowed_to_trade (cfg : RiskConfig) (now : ℤ)
    (st : RiskManagerState) : RiskManagerState × Bool × TradeBlockReason :=
  if st.circuit_breaker_state = .TRIGGERED then
    match st.circuit_breaker_time with
    | some cbt =>
      if 30 * 60 * 1000 < now - cbt then
        allowed_after_breaker cfg (reset_circuit_breaker now st)
      else
        (st, false, .circuit_breaker_active
          (max 0 (30 - ((now - cbt : ℤ) : ℚ) / 1000 / 60)))
    | none => (st, false, .circuit_breaker_active (max 0 0))
  else
    allowed_after_breaker cfg st

/-- An operation performed on a `RiskManager` during its lifetime, for
stating invariants over call sequences. -/
inductive RiskOp where
  | update (now : ℤ) (pnl : ℚ)
  | reset (now : ℤ)
deriving Repr

/-- Apply one `RiskOp`. -/
def applyRiskOp (cfg : RiskConfig) (st : RiskManagerState) :
    RiskOp → RiskManagerState
  | .update now pnl => update_pnl cfg now pnl st
  | .reset now => reset_circuit_breaker now st

/-- Apply a sequence of `RiskOp`s left to right. -/
def applyRiskOps (cfg : RiskConfig) (st : RiskManagerState) :
    List RiskOp → RiskManagerState
  | [] => st
  | op :: ops => applyRiskOps cfg (applyRiskOp cfg st op) ops

/-! ## position_manager.py : Position and PositionManager -/

/-- `PositionStatus` (position_manager.py lines 16-21). -/
inductive PositionStatus where
  | ACTIVE
  | CLOSED
  | STOPPED
  | PROFIT_TAKEN
deriving DecidableEq, Repr

/-- `PositionSide` (position_manager.py lines 24-27). -/
inductive PositionSide where
  | LONG
  | SHORT
deriving DecidableEq, Repr

/-- The `Position` dataclass (position_manager.py lines 30-44). -/
structure Position where
  symbol : String
  side : PositionSide
  entry_price : ℚ
  quantity : ℚ
  stop_loss : Option ℚ := none
  take_profit : Option ℚ := none
  entry_time : ℤ := 0
  status : PositionStatus := .ACTIVE
  exit_price : Option ℚ := none
  exit_time : Option ℤ := none
  pnl : ℚ := 0
  order_id : Option String := none
deriving DecidableEq, Repr

/-- `Position.calculate_pnl` (position_manager.py lines 46-61):
LONG pnl = (current - entry) * quantity / entry, SHORT with the sign of the
price move inverted. -/
def Position.calculate_pnl (p : Position) (current_price : ℚ) : ℚ :=
  match p.side with
  | .LONG => (current_price - p.entry_price) * p.quantity / p.entry_price
  | .SHORT => (p.entry_price - current_price) * p.quantity / p.entry_price

/-- The state of a `PositionManager` (position_manager.py lines 87-97).
The Python `dict` keyed by symbol is modelled by an association list that
holds at most one entry per key (enforced by `add_position`). -/
structure PositionManagerState where
  max_positions : ℤ := 3
  positions : List (String × Position) := []
  position_count : ℤ := 0
deriving DecidableEq, Repr

/-- `PositionManager.add_position` (position_manager.py lines 99-120). -/
def add_position (p : Position) (st : PositionManagerState) :
    Bool × PositionManagerState :=
  if st.max_positions ≤ st.position_count then (false, st)
  else if (st.positions.lookup p.symbol).isSome then (false, st)
  else (true, { st with positions := st.positions ++ [(p.symbol, p)],
                        position_count := st.position_count + 1 })

/-- `del self.positions[symbol]`: remove the entry for a symbol (a Python
dict holds at most one entry per key). -/
def removeKey (symbol : String) :
    List (String × Position) → List (String × Position)
  | [] => []
  | q :: rest =>
    if q.1 = symbol then removeKey symbol rest
    else q :: removeKey symbol rest

/-- `PositionManager.close_position` (position_manager.py lines 122-157):
returns the closed record (or `none` if the symbol is not held) together
with the updated manager state. -/
def close_position (now : ℤ) (symbol : String) (exit_price : ℚ)
    (st : PositionManagerState) : Option Position × PositionManagerState :=
  match st.positions.lookup symbol with
  | none => (none, st)
  | some p =>
    let p := { p with exit_price := some exit_price,
                      exit_time := some now,
                      pnl := p.calculate_pnl exit_price }
    let p := { p with status := if 0 < p.pnl then PositionStatus.PROFIT_TAKEN
                                else PositionStatus.STOPPED }
    (some p,
     { st with positions := removeKey symbol st.positions,
               position_count := max 0 (st.position_count - 1) })

/-- `PositionManager.is_at_capacity` (position_manager.py lines 196-199). -/
def is_at_capacity (pm : PositionManagerState) : Bool :=
  pm.max_positions ≤ pm.position_count

/-! ## risk_manager.py : ExecutionGate -/

/-- The reason strings of `ExecutionGate.check`, as structured data. -/
inductive GateReason where
  /-- "交易间隔不足，还需 X 秒" -/
  | interval_short (remaining_seconds : ℚ)
  /-- "持仓已达上限 X" -/
  | at_capacity (max_positions : ℤ)
  /-- "K线实体过小" -/
  | small_body
  /-- "止损距离过小 X% < Y%" -/
  | stop_distance_small (actual required : ℚ)
  /-- "通过所有校验" -/
  | pass
deriving DecidableEq, Repr

/-- The state of an `ExecutionGate` (risk_manager.py lines 196-205); the
minimum trade interval is 10 minutes in milliseconds. -/
structure ExecutionGateState where
  last_trade_time : Option ℤ := none
  min_trade_interval : ℤ := 10 * 60 * 1000
  max_positions : ℤ := 3
  position_manager : PositionManagerState := {}
deriving DecidableEq, Repr

/-- The attributes of the `signal` argument that `ExecutionGate.check`
inspects via `hasattr`; `none` models an object lacking the attribute. -/
structure GateSignal where
  stop_loss : Option ℚ := none
  entry_price : Option ℚ := none
deriving DecidableEq, Repr

/-- Check 4 of `ExecutionGate.check` (risk_manager.py lines 238-242):
stop-loss distance.  Dividing by a zero entry price raises
`ZeroDivisionError` in Python. -/
def gate_check_stop (signal : GateSignal) (min_stop_loss_distance : ℚ) :
    Except PyErr (Bool × GateReason) :=
  match signal.stop_loss, signal.entry_price with
  | some sl, some ep =>
    if ep = 0 then .error .zeroDivisionError
    else if |sl - ep| / ep < min_stop_loss_distance then
      .ok (false, .stop_distance_small (|sl - ep| / ep) min_stop_loss_distance)
    else .ok (true, .pass)
  | _, _ => .ok (true, .pass)

/-- Check 3 of `ExecutionGate.check` (risk_manager.py lines 231-236):
`body_ratio = latest_kline.body_size / latest_kline.range_size` with no
zero guard, so a zero-range candle raises `ZeroDivisionError`. -/
def gate_check_body (klines : List MarketData) (signal : GateSignal)
    (min_stop_loss_distance : ℚ) : Except PyErr (Bool × GateReason) :=
  match klines.getLast? with
  | some latest =>
    if latest.range_size = 0 then .error .zeroDivisionError
    else if latest.body_size / latest.range_size < 3 / 10 then
      .ok (false, .small_body)
    else gate_check_stop signal min_stop_loss_distance
  | none => gate_check_stop signal min_stop_loss_distance

/-- Check 2 of `ExecutionGate.check` (risk_manager.py lines 227-229):
position capacity, delegated to the position manager. -/
def gate_check_capacity (gate : ExecutionGateState)
    (klines : List MarketData) (signal : GateSignal)
    (min_stop_loss_distance : ℚ) : Except PyErr (Bool × GateReason) :=
  if is_at_capacity gate.position_manager then
    .ok (false, .at_capacity gate.max_positions)
  else gate_check_body klines signal min_stop_loss_distance

/-- `ExecutionGate.check` (risk_manager.py lines 207-244): the four checks
evaluated in order with the first failure short-circuiting; check 1 is the
minimum trade interval, reporting the remaining wait in seconds. -/
def ExecutionGate.check (now : ℤ) (gate : ExecutionGateState)
    (klines : List MarketData) (signal : GateSignal)
    (min_stop_loss_distance : ℚ) : Except PyErr (Bool × GateReason) :=
  match gate.last_trade_time with
  | some t =>
    if now - t < gate.min_trade_interval then
      .ok (false, .interval_short
        (((gate.min_trade_interval - (now - t) : ℤ) : ℚ) / 1000))
    else gate_check_capacity gate klines signal min_stop_loss_distance
  | none => gate_check_capacity gate klines signal min_stop_loss_distance

/-- `ExecutionGate.record_trade` (risk_manager.py lines 246-249). -/
def record_trade (now : ℤ) (gate : ExecutionGateState) : ExecutionGateState :=
  { gate with last_trade_time := some now }

/-! ## fvg_signal.py : FVG, LiquidityZone, SwingPoint -/

/-- `FVGType` (fvg_signal.py lines 14-17). -/
inductive FVGType where
  | BULLISH
  | BEARISH
deriving DecidableEq, Repr

/-- `LiquidityType` (fvg_signal.py lines 20-23). -/
inductive LiquidityType where
  | BUYSIDE
  | SELLSIDE
deriving DecidableEq, Repr

/-- `SignalType` (fvg_signal.py lines 26-29). -/
inductive SignalType where
  | BUY
  | SELL
deriving DecidableEq, Repr

/-- The `FVG` dataclass (fvg_signal.py lines 39-50); timestamps are epoch
milliseconds. -/
structure FVG where
  gap_type : FVGType
  high_bound : ℚ
  low_bound : ℚ
  size : ℚ
  size_percent : ℚ
  formation_time : ℤ
  kline_index : ℕ
  is_filled : Bool := false
  fill_time : Option ℤ := none
deriving DecidableEq, Repr

/-- `FVG.midpoint` (fvg_signal.py lines 52-55). -/
def FVG.midpoint (f : FVG) : ℚ := (f.high_bound + f.low_bound) / 2

/-- `FVG.is_active` (fvg_signal.py lines 57-65): a filled FVG is inactive;
otherwise the age in minutes, computed from the `current_time` argument
(milliseconds) and `formation_time`, must be strictly below
`max_age_minutes`. -/
def FVG.is_active (f : FVG) (current_time : ℤ) (max_age_minutes : ℤ) : Bool :=
  if f.is_filled then false
  else
    let age_seconds : ℚ := ((current_time - f.formation_time : ℤ) : ℚ) / 1000
    let age_minutes : ℚ := age_seconds / 60
    decide (age_minutes < (max_age_minutes : ℚ))

/-- The `LiquidityZone` dataclass (fvg_signal.py lines 74-83). -/
structure LiquidityZone where
  zone_type : LiquidityType
  level : ℚ
  strength : ℚ
  formation_time : ℤ
  touched_count : ℕ := 0
  is_swept : Bool := false
  sweep_time : Option ℤ := none
deriving DecidableEq, Repr

/-- `LiquidityZone.update_strength` (fvg_signal.py lines 85-87):
`strength = min(1.0, strength * factor)`. -/
def LiquidityZone.update_strength (z : LiquidityZone) (factor : ℚ) :
    LiquidityZone :=
  { z with strength := min 1 (z.strength * factor) }

/-- `LiquidityZone.increment_touch` (fvg_signal.py lines 89-93): bump the
touch counter and decay strength by the factor 0.8. -/
def LiquidityZone.increment_touch (z : LiquidityZone) : LiquidityZone :=
  ({ z with touched_count := z.touched_count + 1 }).update_strength (8 / 10)

/-- The `SwingPoint` dataclass (fvg_signal.py lines 102-108). -/
structure SwingPoint where
  point_type : String
  price : ℚ
  time : ℤ
  index : ℕ
deriving DecidableEq, Repr

/-! ## fvg_strategy.py : validate_fvg -/

/-- The fields of `FVGStrategyConfig` (fvg_strategy.py lines 17-35) that
`validate_fvg` reads, with their source defaults; the signal-generation
parameters of the config are not consulted by the embedded operation. -/
structure FVGStrategyConfig where
  min_fvg_size_percent : ℚ := 5 / 10000
  max_fvg_age_minutes : ℤ := 60
deriving DecidableEq, Repr

/-- Python `int(...)` on a float/rational: truncation toward zero. -/
def pyTrunc (q : ℚ) : ℤ :=
  if 0 ≤ q then ⌊q⌋ else -⌊-q⌋

/-- `FVGStrategy.validate_fvg` (fvg_strategy.py lines 177-200).  Note the
source's age check on line 193: it calls
`fvg.is_active(int(current_price * 1000), self.config.max_fvg_age_minutes)`,
passing the scaled *price* where `is_active` expects the current *time*. -/
def validate_fvg (cfg : FVGStrategyConfig) (fvg : FVG)
    (current_price : ℚ) : Bool :=
  if fvg.is_filled then false
  else if ! fvg.is_active (pyTrunc (current_price * 1000))
            cfg.max_fvg_age_minutes then false
  else if fvg.size_percent < cfg.min_fvg_size_percent then false
  else true

/-! ## liquidity_analyzer.py : swing points and buy-side liquidity -/

/-- Modelled from the spec: the candle type `KLine` that
`liquidity_analyzer.py` and `fvg_strategy.py` import
(`from data_fetcher import DataFetcher, KLine`) is absent from the source
tree (data_fetcher.py defines only `MarketData`).  Its shape is determined
by the spec's Candle model and by the fields the analyzers access:
`high`, `low`, `close`, `close_time`. -/
structure KLine where
  high : ℚ
  low : ℚ
  close : ℚ
  close_time : ℤ
deriving DecidableEq, Repr

/-- The fields of `LiquidityAnalysisConfig` (liquidity_analyzer.py lines
18-35) read by the embedded operations, with their source defaults. -/
structure LiquidityAnalysisConfig where
  liquidity_threshold : ℚ := 1 / 1000
deriving DecidableEq, Repr

/-- The swing-low test at index `i` of
`LiquidityAnalyzer.identify_swing_points` (liquidity_analyzer.py lines
95-104): the candle's low is strictly below the lows of the two candles on
each side. -/
def swingLowAt (klines : List KLine) (i : ℕ) : Option SwingPoint :=
  match klines.get? (i - 2), klines.get? (i - 1), klines.get? i,
        klines.get? (i + 1), klines.get? (i + 2) with
  | some p2, some p1, some c, some n1, some n2 =>
    if c.low < p1.low ∧ c.low < p2.low ∧ c.low < n1.low ∧ c.low < n2.low then
      some { point_type := "LOW", price := c.low, time := c.close_time,
             index := i }
    else none
  | _, _, _, _, _ => none

/-- The swing-high test at index `i` (liquidity_analyzer.py lines 84-93). -/
def swingHighAt (klines : List KLine) (i : ℕ) : Option SwingPoint :=
  match klines.get? (i - 2), klines.get? (i - 1), klines.get? i,
        klines.get? (i + 1), klines.get? (i + 2) with
  | some p2, some p1, some c, some n1, some n2 =>
    if p1.high < c.high ∧ p2.high < c.high ∧ n1.high < c.high ∧
       n2.high < c.high then
      some { point_type := "HIGH", price := c.high, time := c.close_time,
             index := i }
    else none
  | _, _, _, _, _ => none

/-- `LiquidityAnalyzer.identify_swing_points` (liquidity_analyzer.py lines
57-109) over already-fetched klines: returns fewer than 5 candles gives no
swing points; otherwise scan interior indices `2 ≤ i < len - 2`. -/
def identify_swing_points (klines : List KLine) :
    List SwingPoint × List SwingPoint :=
  if klines.length < 5 then ([], [])
  else
    ((List.range klines.length).filterMap (fun i =>
        if 2 ≤ i ∧ i < klines.length - 2 then swingHighAt klines i else none),
     (List.range klines.length).filterMap (fun i =>
        if 2 ≤ i ∧ i < klines.length - 2 then swingLowAt klines i else none))

/-- The duplicate-zone merge inside `identify_buyside_liquidity`
(liquidity_analyzer.py lines 150-158): the first existing zone whose level
is within 0.1% of the current price of the new swing low absorbs it —
its strength becomes the max of the two and its touch counter is bumped.
Returns `none` when no zone is close enough. -/
def mergeBuysideZone (current_price price strength : ℚ) :
    List LiquidityZone → Option (List LiquidityZone)
  | [] => none
  | z :: zs =>
    if |z.level - price| < current_price * (1 / 1000) then
      some ({ z with strength := max z.strength strength,
                     touched_count := z.touched_count + 1 } :: zs)
    else
      match mergeBuysideZone current_price price strength zs with
      | some zs2 => some (z :: zs2)
      | none => none

/-- The zone-building loop of `identify_buyside_liquidity`
(liquidity_analyzer.py lines 133-167) over the enumerated swing lows:
skip the last two swing lows, skip lows at or above the current price,
compute `strength = 1 - min(1, distance / (price * 0.01))`, drop weak
zones, then merge into a nearby zone or append a fresh one. -/
def buysideZonesLoop (cfg : LiquidityAnalysisConfig) (current_price : ℚ)
    (n : ℕ) : List (ℕ × SwingPoint) → List LiquidityZone →
    List LiquidityZone
  | [], zones => zones
  | (i, sl) :: rest, zones =>
    if n - 2 ≤ i then
      buysideZonesLoop cfg current_price n rest zones
    else if current_price ≤ sl.price then
      buysideZonesLoop cfg current_price n rest zones
    else
      let distance := current_price - sl.price
      let strength := 1 - min 1 (distance / (current_price * (1 / 100)))
      if strength < cfg.liquidity_threshold then
        buysideZonesLoop cfg current_price n rest zones
      else
        match mergeBuysideZone current_price sl.price strength zones with
        | some zones2 => buysideZonesLoop cfg current_price n rest zones2
        | none =>
          buysideZonesLoop cfg current_price n rest
            (zones ++ [{ zone_type := .BUYSIDE, level := sl.price,
                         strength := strength,
                         formation_time := sl.time }])

/-- `LiquidityAnalyzer.identify_buyside_liquidity` (liquidity_analyzer.py
lines 111-172) over already-fetched klines and the current price: build
zones from the swing lows and sort them by strength, descending (Python's
stable `list.sort` with `reverse=True`). -/
def identify_buyside_liquidity (cfg : LiquidityAnalysisConfig)
    (klines : List KLine) (current_price : ℚ) : List LiquidityZone :=
  let swing_lows := (identify_swing_points klines).2
  if swing_lows.isEmpty then []
  else
    let zones := buysideZonesLoop cfg current_price swing_lows.length
      swing_lows.enum []
    zones.mergeSort (fun a b => decide (b.strength ≤ a.strength))

/-! ## multi_timeframe_analyzer.py : detect_confluence -/

/-- The fields of the `FVGSignal` dataclass (fvg_signal.py lines 152-181)
that the confluence analyzer touches.  Crucially, the dataclass declares
`signal_type`, NOT a `direction` attribute. -/
structure FVGSignal where
  signal_type : SignalType
  symbol : String
  entry_price : ℚ
  stop_loss : ℚ
  take_profit : ℚ
  confidence : ℚ
  timeframe : String
deriving DecidableEq, Repr

/-- The dynamic attribute access `signal.direction` performed by
`detect_confluence` (multi_timeframe_analyzer.py lines 198-199):
`TradingSignal = FVGSignal` (fvg_signal.py line 242) has no `direction`
attribute, so the access raises `AttributeError`. -/
def FVGSignal.direction (_ : FVGSignal) : Except PyErr String :=
  .error (.attributeError "direction")

/-- The `TimeframeAnalysis` dataclass (multi_timeframe_analyzer.py lines
22-31). -/
structure TimeframeAnalysis where
  timeframe : String
  bullish_fvgs : List FVG := []
  bearish_fvgs : List FVG := []
  liquidity_zones : List LiquidityZone := []
  trading_signals : List FVGSignal := []
  analysis_time : ℤ := 0
  is_valid : Bool := true
deriving DecidableEq, Repr

/-- The default `timeframe_weights` of `FVGStrategyConfig`
(parameter_config.py line 88). -/
def timeframe_weights : List (String × ℚ) :=
  [("5m", 1), ("15m", 2), ("1h", 3)]

/-- `self.fvg_config.timeframe_weights.get(tf, 1.0)`
(multi_timeframe_analyzer.py line 309). -/
def weightOf (tf : String) : ℚ :=
  (timeframe_weights.lookup tf).getD 1

/-- `MultiTimeframeAnalyzer._calculate_weighted_score`
(multi_timeframe_analyzer.py lines 287-317) as its body is written, i.e.
over the `(timeframe, signal)` tuples its loop `for tf, signal in signals`
unpacks: `Σ(confidence × weight) / Σ(weight)` with the empty-input and
zero-weight guards. -/
def calculate_weighted_score (signals : List (String × FVGSignal)) : ℚ :=
  if signals.isEmpty then 0
  else
    let total_score := (signals.map (fun p => p.2.confidence * weightOf p.1)).sum
    let total_weight := (signals.map (fun p => weightOf p.1)).sum
    if total_weight = 0 then 0
    else total_score / total_weight

/-- `_calculate_weighted_score` as `detect_confluence` actually invokes it
(multi_timeframe_analyzer.py lines 202-203): the argument is a list of
*bare* signals (the comprehensions on lines 198-199 strip the timeframe),
so `for tf, signal in signals` attempts to unpack an `FVGSignal` and
raises `TypeError` on the first element; only the empty list survives,
returning 0. -/
def calculate_weighted_score_as_called (signals : List FVGSignal) :
    Except PyErr ℚ :=
  match signals with
  | [] => .ok 0
  | _ :: _ => .error (.typeError "cannot unpack non-iterable FVGSignal object")

/-- The list comprehension
`[s for tf, s in all_signals if s.direction == d]`
(multi_timeframe_analyzer.py lines 198-199): each element's dynamic
`direction` attribute is read in order, so the first signal raises. -/
def pyFilterByDirection :
    List (String × FVGSignal) → String → Except PyErr (List FVGSignal)
  | [], _ => .ok []
  | (_, s) :: rest, d => do
    let dir ← s.direction
    let tail ← pyFilterByDirection rest d
    if dir = d then pure (s :: tail) else pure tail

/-- The confluence fields that the claims concern: the winning direction,
its score, and the boosted confidence (projection of the
`MultiTimeframeConfluence` record built on multi_timeframe_analyzer.py
lines 273-285; the remaining fields are assembled by code that no
execution reaches, see `detect_confluence`). -/
structure ConfluenceSummary where
  confluence_type : String
  confluence_score : ℚ
  confidence : ℚ
deriving DecidableEq, Repr

/-- `MultiTimeframeAnalyzer.detect_confluence`
(multi_timeframe_analyzer.py lines 166-285).  Control flow of the source:
filter valid analyses carrying at least one signal; return `None` when
none survive; flatten all `(timeframe, signal)` pairs; partition by the
dynamic `s.direction` attribute (which raises `AttributeError` for
`FVGSignal`s); score each side via `_calculate_weighted_score` called with
the bare signal lists; declare BUY/SELL only above the other side's score
and the 0.3 floor, else `None`; final confidence is
`min(score * 1.2, 1.0)`.  The record assembly after the scores (primary
and support signals, the `zone.direction` loop on lines 243-249 — another
attribute that `LiquidityZone` lacks) is unreachable because the partition
on line 198 raises whenever a signal exists, and is summarised by
`ConfluenceSummary`. -/
def detect_confluence (analyses : List (String × TimeframeAnalysis)) :
    Except PyErr (Option ConfluenceSummary) := do
  let valid := analyses.filter
    (fun p => p.2.is_valid && ! p.2.trading_signals.isEmpty)
  if valid.isEmpty then
    pure none
  else
    let all_signals := valid.flatMap
      (fun p => p.2.trading_signals.map (fun s => (p.1, s)))
    let buy_signals ← pyFilterByDirection all_signals "BUY"
    let sell_signals ← pyFilterByDirection all_signals "SELL"
    let buy_score ← calculate_weighted_score_as_called buy_signals
    let sell_score ← calculate_weighted_score_as_called sell_signals
    if sell_score < buy_score ∧ (3 : ℚ) / 10 < buy_score then
      let confluence_score := max buy_score sell_score
      pure (some { confluence_type := "BUY",
                   confluence_score := confluence_score,
                   confidence := min (confluence_score * (12 / 10)) 1 })
    else if buy_score < sell_score ∧ (3 : ℚ) / 10 < sell_score then
      let confluence_score := max buy_score sell_score
      pure (some { confluence_type := "SELL",
                   confluence_score := confluence_score,
                   confidence := min (confluence_score * (12 / 10)) 1 })
    else
      pure none

/-! ## Concrete instances used by the claim theorems -/

/-- Default risk configuration (risk_manager.py lines 39-42):
max_drawdown 5%, max_consecutive_losses 3, daily_loss_limit 30. -/
def c1cfg : RiskConfig := {}

/-- The circuit-breaker scenario state: three consecutive `update_pnl(-10)`
calls on a fresh `RiskManager` (all at timestamp 0). -/
def c1st : RiskManagerState :=
  update_pnl c1cfg 0 (-10) (update_pnl c1cfg 0 (-10)
    (update_pnl c1cfg 0 (-10) (initRiskManager 0)))

/-- An unfilled FVG of ample size (1%) formed at epoch-millisecond
1700000000000; at a real clock two hours later it is 120 minutes old. -/
def fvgStale : FVG where
  gap_type := .BULLISH
  high_bound := 2010
  low_bound := 2000
  size := 10
  size_percent := 1 / 100
  formation_time := 1700000000000
  kline_index := 5

/-- Candles (lows
1000, 1000, 995, 1000, 1000.5, 995.9, 1000.5, 1001, 996, 1001, 1001.5,
997, 1001.5, 1001) whose swing lows are at indices 2, 5, 8 and 11; with
the current price at 1000, swing lows 995 and 995.9 fall into the same
0.1% band and get merged by `identify_buyside_liquidity`. -/
def c9klines : List KLine :=
  [⟨1001, 1000, 1000, 0⟩, ⟨1001, 1000, 1000, 1⟩, ⟨996, 995, 995, 2⟩,
   ⟨1001, 1000, 1000, 3⟩, ⟨2003/2, 2001/2, 2001/2, 4⟩,
   ⟨9969/10, 9959/10, 9959/10, 5⟩, ⟨2003/2, 2001/2, 2001/2, 6⟩,
   ⟨1002, 1001, 1001, 7⟩, ⟨997, 996, 996, 8⟩, ⟨1002, 1001, 1001, 9⟩,
   ⟨2005/2, 2003/2, 2003/2, 10⟩, ⟨998, 997, 997, 11⟩,
   ⟨2005/2, 2003/2, 2003/2, 12⟩, ⟨1002, 1001, 1001, 13⟩]

/-- A trading signal as produced by the FVG strategy. -/
def c6sig : FVGSignal where
  signal_type := .BUY
  symbol := "ETHUSDT"
  entry_price := 100
  stop_loss := 95
  take_profit := 110
  confidence := 8 / 10
  timeframe := "5m"

/-- A valid single-timeframe analysis carrying one signal. -/
def c6analysis : TimeframeAnalysis where
  timeframe := "5m"
  trading_signals := [c6sig]

/-- The spec's round-trip position: LONG, entry 100, stop 95,
take-profit 110, quantity 100. -/
def c5pos : Position where
  symbol := "ETHUSDT"
  side := .LONG
  entry_price := 100
  quantity := 100
  stop_loss := some 95
  take_profit := some 110

/-- A position manager holding exactly `c5pos`. -/
def c5mgr : PositionManagerState where
  max_positions := 3
  positions := [("ETHUSDT", c5pos)]
  position_count := 1

/-! ## Helper lemmas -/

set_option maxHeartbeats 1000000

/-- `MarketData.__init__` raises `NameError` on every argument tuple: the
assignment `self.close = close_price` reads an unbound name. -/
theorem marketDataInit_nameError (symbol timeframe : String) (open_time : ℤ)
    (open_price high low close volume : ℚ) (close_time : ℤ) :
    marketDataInit symbol timeframe open_time open_price high low close
      volume close_time = .error (.nameError "close_price") := rfl

/-- `_check_circuit_breaker` never changes the metrics, it only flips the
breaker state. -/
theorem check_circuit_breaker_metrics (cfg : RiskConfig) (now : ℤ)
    (st : RiskManagerState) :
    (check_circuit_breaker cfg now st).metrics = st.metrics := by
  unfold check_circuit_breaker trigger_circuit_breaker
  split_ifs <;> rfl

/-- `reset_circuit_breaker` never changes the metrics. -/
theorem reset_circuit_breaker_metrics (now : ℤ) (st : RiskManagerState) :
    (reset_circuit_breaker now st).metrics = st.metrics := rfl

/-- The win/loss branch of `update_pnl` never touches `max_drawdown`. -/
theorem update_pnl_streaks_max_drawdown (m : RiskMetrics) (pnl : ℚ) :
    (update_pnl_streaks m pnl).max_drawdown = m.max_drawdown := by
  unfold update_pnl_streaks
  split_ifs <;> simp [apply_ite RiskMetrics.max_drawdown]

/-- A single `update_pnl` call cannot decrease `max_drawdown`. -/
theorem update_pnl_max_drawdown_mono (cfg : RiskConfig) (now : ℤ) (pnl : ℚ)
    (st : RiskManagerState) :
    st.metrics.max_drawdown ≤ (update_pnl cfg now pnl st).metrics.max_drawdown := by
  unfold update_pnl
  rw [check_circuit_breaker_metrics]
  simp only [update_pnl_streaks_max_drawdown]
  exact le_max_left _ _

/-- Removing a key from the association list makes its lookup fail. -/
theorem lookup_removeKey (symbol : String) (l : List (String × Position)) :
    (removeKey symbol l).lookup symbol = none := by
  induction l with
  | nil => rfl
  | cons q rest ih =>
    unfold removeKey
    split_ifs with h
    · exact ih
    · have hbeq : (symbol == q.1) = false :=
        beq_eq_false_iff_ne.mpr (fun e => h e.symm)
      rw [List.lookup, hbeq, ih]

/-- The swing lows of `c9klines` sit at indices 2, 5, 8 and 11. -/
theorem c9swingLows : (identify_swing_points c9klines).2 =
    [⟨"LOW", 995, 2, 2⟩, ⟨"LOW", 9959 / 10, 5, 5⟩, ⟨"LOW", 996, 8, 8⟩,
     ⟨"LOW", 997, 11, 11⟩] := by
  norm_num [identify_swing_points, c9klines, swingLowAt, List.range_succ,
    List.filterMap_cons]

/-- One `increment_touch` call cannot raise a nonnegative strength. -/
theorem increment_touch_le (z : LiquidityZone) (h : 0 ≤ z.strength) :
    z.increment_touch.strength ≤ z.strength := by
  unfold LiquidityZone.increment_touch LiquidityZone.update_strength
  refine le_trans (min_le_right _ _) ?_
  exact mul_le_of_le_one_right h (by norm_num)

/-- `increment_touch` keeps strength nonnegative. -/
theorem increment_touch_nonneg (z : LiquidityZone) (h : 0 ≤ z.strength) :
    0 ≤ z.increment_touch.strength := by
  unfold LiquidityZone.increment_touch LiquidityZone.update_strength
  exact le_min (by norm_num) (mul_nonneg h (by norm_num))

/-- The default weight of timeframe 15m is 2. -/
theorem weightOf_15m : weightOf "15m" = 2 := rfl

/-- The default weight of timeframe 1h is 3. -/
theorem weightOf_1h : weightOf "1h" = 3 := rfl

/-! ## Claim theorems -/

/-- C3: for every argument tuple, constructing a `MarketData` candle fails
with `NameError` (the constructor assigns `self.close` from the undefined
name `close_price`), and consequently the kline-conversion step of
`DataFetcher.get_klines` can only ever succeed with the empty candle
list. -/
theorem claim_C3 :
    (∀ (symbol timeframe : String) (open_time : ℤ)
       (open_price high low close volume : ℚ) (close_time : ℤ),
       marketDataInit symbol timeframe open_time open_price high low close
         volume close_time = .error (.nameError "close_price")) ∧
    (∀ (symbol interval : String) (rows : List RawKline)
       (l : List MarketData),
       fetchKlines symbol interval rows = .ok l → rows = [] ∧ l = []) := by
  refine ⟨marketDataInit_nameError, ?_⟩
  intro symbol interval rows l h
  cases rows with
  | nil =>
    refine ⟨rfl, ?_⟩
    simpa [fetchKlines] using h.symm
  | cons r rs =>
    rw [fetchKlines, marketDataInit_nameError] at h
    exact absurd h (by simp)

/-- C3 witness: the conversion succeeds exactly on the empty row list. -/
theorem claim_C3_witness :
    fetchKlines "ETHUSDT" "5m" [] = .ok [] ∧
    ([] : List RawKline) = [] ∧ ([] : List MarketData) = [] :=
  ⟨rfl, claim_C3.2 "ETHUSDT" "5m" [] [] rfl⟩

/-- C8 counterexample: the claim quantifies over candles with *any* values
of open/high/low/close, but for a candle with `high < low` the derived
`range_size` is negative, and for one with `high < open` the `upper_wick`
is negative. -/
theorem claim_C8_counterexample :
    (MarketData.mk "ETHUSDT" "5m" 0 0 0 1 0 0 0).range_size < 0 ∧
    (MarketData.mk "ETHUSDT" "5m" 0 1 0 0 0 0 0).upper_wick < 0 := by
  constructor
  · norm_num [MarketData.range_size]
  · norm_num [MarketData.upper_wick, max_def]

/-- C8 (amended): for every candle whose high dominates open/close and
whose low is dominated by them (well-formed OHLC), the derived fields
satisfy `body_size = |close - open|`, `range_size = high - low ≥ 0`,
`upper_wick ≥ 0` and `lower_wick ≥ 0`; the two equations hold for
arbitrary values. -/
theorem claim_C8_amended (c : MarketData)
    (hh : max c.open_price c.close ≤ c.high)
    (hl : c.low ≤ min c.open_price c.close) :
    c.body_size = |c.close - c.open_price| ∧
    c.range_size = c.high - c.low ∧
    0 ≤ c.range_size ∧ 0 ≤ c.upper_wick ∧ 0 ≤ c.lower_wick := by
  refine ⟨rfl, rfl, ?_, ?_, ?_⟩
  · have h1 : min c.open_price c.close ≤ max c.open_price c.close :=
      min_le_max
    unfold MarketData.range_size
    linarith
  · unfold MarketData.upper_wick
    linarith
  · unfold MarketData.lower_wick
    linarith

/-- C8 witness: the amended statement at the candle
open 1, high 3, low 0, close 2. -/
theorem claim_C8_witness :
    (MarketData.mk "ETHUSDT" "5m" 0 1 3 0 2 5 0).body_size = |(2 : ℚ) - 1| ∧
    (MarketData.mk "ETHUSDT" "5m" 0 1 3 0 2 5 0).range_size = 3 - 0 ∧
    0 ≤ (MarketData.mk "ETHUSDT" "5m" 0 1 3 0 2 5 0).range_size ∧
    0 ≤ (MarketData.mk "ETHUSDT" "5m" 0 1 3 0 2 5 0).upper_wick ∧
    0 ≤ (MarketData.mk "ETHUSDT" "5m" 0 1 3 0 2 5 0).lower_wick :=
  claim_C8_amended _ (by norm_num [max_def]) (by norm_num [min_def])

/-- C4: `max_drawdown` is monotonically non-decreasing: each `update_pnl`
call can only raise it, `reset_circuit_breaker` leaves the whole metrics
record (hence `max_drawdown`) untouched — it only clears the breaker
state, `daily_pnl` and `daily_start_time` — and thus any sequence of
`update_pnl` / `reset_circuit_breaker` calls never decreases it. -/
theorem claim_C4 :
    (∀ (cfg : RiskConfig) (now : ℤ) (pnl : ℚ) (st : RiskManagerState),
       st.metrics.max_drawdown ≤
         (update_pnl cfg now pnl st).metrics.max_drawdown) ∧
    (∀ (now : ℤ) (st : RiskManagerState),
       (reset_circuit_breaker now st).metrics = st.metrics ∧
       (reset_circuit_breaker now st).equity_curve = st.equity_curve ∧
       (reset_circuit_breaker now st).initial_balance = st.initial_balance ∧
       (reset_circuit_breaker now st).daily_pnl = 0 ∧
       (reset_circuit_breaker now st).circuit_breaker_state = .NORMAL) ∧
    (∀ (cfg : RiskConfig) (st : RiskManagerState) (ops : List RiskOp),
       st.metrics.max_drawdown ≤
         (applyRiskOps cfg st ops).metrics.max_drawdown) := by
  refine ⟨update_pnl_max_drawdown_mono, ?_, ?_⟩
  · intro now st
    exact ⟨rfl, rfl, rfl, rfl, rfl⟩
  · intro cfg st ops
    induction ops generalizing st with
    | nil => exact le_refl _
    | cons op ops ih =>
      refine le_trans ?_ (ih (applyRiskOp cfg st op))
      cases op with
      | update now pnl => exact update_pnl_max_drawdown_mono cfg now pnl st
      | reset now =>
        simp only [applyRiskOp, reset_circuit_breaker_metrics, le_refl]

/-- C5: for every position held under its symbol, `close_position` returns
the closed record with `pnl = (exit - entry) / entry × quantity` for LONG
(sign-inverted for SHORT) and status PROFIT_TAKEN iff the pnl is positive,
removes the symbol from the active map and decrements the count; in
particular the LONG position entry 100 / quantity 100 closed at 110 yields
pnl exactly 10. -/
theorem claim_C5 :
    (∀ (now : ℤ) (st : PositionManagerState) (symbol : String)
       (p : Position) (exit_price : ℚ),
       st.positions.lookup symbol = some p → p.entry_price ≠ 0 →
       (close_position now symbol exit_price st).2.positions.lookup symbol
         = none ∧
       (close_position now symbol exit_price st).2.position_count
         = max 0 (st.position_count - 1) ∧
       ∃ closed,
         (close_position now symbol exit_price st).1 = some closed ∧
         closed.pnl = (if p.side = .LONG then
             (exit_price - p.entry_price) / p.entry_price * p.quantity
           else
             -((exit_price - p.entry_price) / p.entry_price * p.quantity)) ∧
         closed.status = (if 0 < closed.pnl then PositionStatus.PROFIT_TAKEN
           else PositionStatus.STOPPED)) ∧
    ((close_position 0 "ETHUSDT" 110 c5mgr).1.map Position.pnl = some 10 ∧
     (close_position 0 "ETHUSDT" 110 c5mgr).1.map Position.status
       = some .PROFIT_TAKEN ∧
     (close_position 0 "ETHUSDT" 110 c5mgr).2.position_count = 0 ∧
     (close_position 0 "ETHUSDT" 110 c5mgr).2.positions.lookup "ETHUSDT"
       = none) := by
  constructor
  · intro now st symbol p exit_price hlook hne
    simp only [close_position, hlook]
    refine ⟨lookup_removeKey _ _, trivial, _, rfl, ?_, ?_⟩
    · cases hside : p.side with
      | LONG =>
        simp only [Position.calculate_pnl, hside, if_pos]
        ring
      | SHORT =>
        simp only [Position.calculate_pnl, hside]
        rw [if_neg (by simp)]
        ring
    · simp
  · refine ⟨?_, ?_, ?_, ?_⟩ <;>
      norm_num [close_position, c5mgr, c5pos, Position.calculate_pnl,
        removeKey, List.lookup]

/-- C5 witness: the general statement instantiated at the manager holding
the LONG 100/100 position, closed at 110. -/
theorem claim_C5_witness :
    (close_position 0 "ETHUSDT" 110 c5mgr).2.positions.lookup "ETHUSDT"
      = none ∧
    (close_position 0 "ETHUSDT" 110 c5mgr).2.position_count
      = max 0 (c5mgr.position_count - 1) ∧
    ∃ closed,
      (close_position 0 "ETHUSDT" 110 c5mgr).1 = some closed ∧
      closed.pnl = (if c5pos.side = .LONG then
          (110 - c5pos.entry_price) / c5pos.entry_price * c5pos.quantity
        else
          -((110 - c5pos.entry_price) / c5pos.entry_price * c5pos.quantity)) ∧
      closed.status = (if 0 < closed.pnl then PositionStatus.PROFIT_TAKEN
        else PositionStatus.STOPPED) :=
  claim_C5.1 0 c5mgr "ETHUSDT" c5pos 110 rfl (by norm_num [c5pos])

/-- C7: `ExecutionGate.check` evaluates its four conditions in order with
the first failure short-circuiting: (1) within the 10-minute interval
after the last recorded trade — in particular within 1 minute — it
rejects with the positive remaining wait in seconds regardless of the
other inputs; (2) with the interval passed and the manager at capacity it
rejects with the capacity reason regardless of candles and signal; (3)
next a candle body/range quotient below 0.3 rejects regardless of the
signal; (4) last a stop-loss distance below the minimum rejects with the
computed and required distances; and with all four satisfied it passes. -/
theorem claim_C7 :
    (∀ (now : ℤ) (gate : ExecutionGateState) (klines : List MarketData)
       (signal : GateSignal) (msd : ℚ) (t : ℤ),
       gate.last_trade_time = some t → gate.min_trade_interval = 600000 →
       0 ≤ now - t → now - t ≤ 60000 →
       ExecutionGate.check now gate klines signal msd =
         .ok (false, .interval_short (((600000 - (now - t) : ℤ) : ℚ) / 1000)) ∧
       0 < (((600000 - (now - t) : ℤ) : ℚ) / 1000)) ∧
    (∀ (now : ℤ) (gate : ExecutionGateState) (klines : List MarketData)
       (signal : GateSignal) (msd : ℚ),
       gate.last_trade_time = none →
       is_at_capacity gate.position_manager = true →
       ExecutionGate.check now gate klines signal msd =
         .ok (false, .at_capacity gate.max_positions)) ∧
    (∀ (now : ℤ) (gate : ExecutionGateState) (klines : List MarketData)
       (c : MarketData) (signal : GateSignal) (msd : ℚ),
       gate.last_trade_time = none →
       is_at_capacity gate.position_manager = false →
       klines.getLast? = some c → c.range_size ≠ 0 →
       c.body_size / c.range_size < 3 / 10 →
       ExecutionGate.check now gate klines signal msd =
         .ok (false, .small_body)) ∧
    (∀ (now : ℤ) (gate : ExecutionGateState) (signal : GateSignal)
       (sl ep msd : ℚ),
       gate.last_trade_time = none →
       is_at_capacity gate.position_manager = false →
       signal.stop_loss = some sl → signal.entry_price = some ep →
       ep ≠ 0 → |sl - ep| / ep < msd →
       ExecutionGate.check now gate [] signal msd =
         .ok (false, .stop_distance_small (|sl - ep| / ep) msd)) ∧
    (∀ (now : ℤ) (gate : ExecutionGateState) (msd : ℚ),
       gate.last_trade_time = none →
       is_at_capacity gate.position_manager = false →
       ExecutionGate.check now gate []
         { stop_loss := none, entry_price := none } msd =
         .ok (true, .pass)) := by
  refine ⟨?_, ?_, ?_, ?_, ?_⟩
  · intro now gate klines signal msd t hlast hint h0 h1
    refine ⟨?_, ?_⟩
    · simp only [ExecutionGate.check, hlast, hint]
      rw [if_pos (by omega)]
    · have h2 : (0 : ℤ) < 600000 - (now - t) := by omega
      have h3 : (0 : ℚ) < ((600000 - (now - t) : ℤ) : ℚ) := by
        exact_mod_cast h2
      positivity
  · intro now gate klines signal msd hlast hcap
    simp only [ExecutionGate.check, hlast, gate_check_capacity, hcap,
      if_true]
  · intro now gate klines c signal msd hlast hcap hlastk hr hb
    simp only [ExecutionGate.check, hlast, gate_check_capacity, hcap,
      Bool.false_eq_true, if_false, gate_check_body, hlastk]
    rw [if_neg hr, if_pos hb]
  · intro now gate signal sl ep msd hlast hcap hsl hep hne hlt
    simp only [ExecutionGate.check, hlast, gate_check_capacity, hcap,
      Bool.false_eq_true, if_false, gate_check_body, List.getLast?_nil,
      gate_check_stop, hsl, hep]
    rw [if_neg hne, if_pos hlt]
  · intro now gate msd hlast hcap
    simp only [ExecutionGate.check, hlast, gate_check_capacity, hcap,
      Bool.false_eq_true, if_false, gate_check_body, List.getLast?_nil,
      gate_check_stop]

/-- C7 witness: one minute after `record_trade` at time 0, the check
rejects with 540 seconds remaining. -/
theorem claim_C7_witness :
    ExecutionGate.check 60000 (record_trade 0 {}) [] {} (1 / 100) =
      .ok (false, .interval_short 540) ∧ (0 : ℚ) < 540 := by
  have h := claim_C7.1 60000 (record_trade 0 {}) [] {} (1 / 100) 0 rfl rfl
    (by norm_num) (by norm_num)
  refine ⟨?_, by norm_num⟩
  rw [h.1]
  simp only [Except.ok.injEq, Prod.mk.injEq, GateReason.interval_short.injEq]
  norm_num

/-- C10: whenever the trade-interval and capacity checks pass and the
latest candle has `high = low` (zero range), `ExecutionGate.check` raises
`ZeroDivisionError` from the unguarded `body_size / range_size` division
instead of returning a `(bool, reason)` result. -/
theorem claim_C10 (now : ℤ) (gate : ExecutionGateState)
    (klines : List MarketData) (c : MarketData) (signal : GateSignal)
    (msd : ℚ)
    (h1 : ∀ t, gate.last_trade_time = some t →
            gate.min_trade_interval ≤ now - t)
    (h2 : is_at_capacity gate.position_manager = false)
    (h3 : klines.getLast? = some c) (h4 : c.high = c.low) :
    ExecutionGate.check now gate klines signal msd =
      .error .zeroDivisionError := by
  have hr : c.range_size = 0 := by
    unfold MarketData.range_size
    rw [h4]
    ring
  have hbody : gate_check_body klines signal msd = .error .zeroDivisionError := by
    simp only [gate_check_body, h3]
    rw [if_pos hr]
  cases hlast : gate.last_trade_time with
  | none =>
    simp only [ExecutionGate.check, hlast, gate_check_capacity, h2,
      Bool.false_eq_true, if_false, hbody]
  | some t =>
    have ht := h1 t hlast
    simp only [ExecutionGate.check, hlast]
    rw [if_neg (by omega)]
    simp only [gate_check_capacity, h2, Bool.false_eq_true, if_false, hbody]

/-- C10 witness: a fresh gate, a singleton kline list whose candle has
high = low = 5. -/
theorem claim_C10_witness :
    ExecutionGate.check 0 {} [MarketData.mk "ETHUSDT" "5m" 0 5 5 5 5 5 0]
      {} (1 / 100) = .error .zeroDivisionError :=
  claim_C10 0 {} [MarketData.mk "ETHUSDT" "5m" 0 5 5 5 5 5 0]
    (MarketData.mk "ETHUSDT" "5m" 0 5 5 5 5 5 0) {} (1 / 100)
    (fun t h => absurd h (by simp)) rfl rfl rfl

/-- C2 (code evaluated at the failing input): `validate_fvg` accepts the
unfilled, amply sized FVG `fvgStale` at current price 3000 even though its
real age is 120 minutes — two hours after `formation_time` the correctly
clocked `is_active` reports it inactive — because line 193 of
fvg_strategy.py hands `int(current_price * 1000)` to `is_active` as the
current time. -/
theorem claim_C2_code_bug :
    validate_fvg {} fvgStale 3000 = true ∧
    fvgStale.is_active (fvgStale.formation_time + 7200000) 60 = false ∧
    fvgStale.is_filled = false ∧
    (5 : ℚ) / 10000 ≤ fvgStale.size_percent := by
  refine ⟨?_, ?_, rfl, by norm_num [fvgStale]⟩
  · norm_num [validate_fvg, fvgStale, FVG.is_active, pyTrunc,
      FVGStrategyConfig.max_fvg_age_minutes,
      FVGStrategyConfig.min_fvg_size_percent]
  · norm_num [FVG.is_active, fvgStale]

/-- C9 counterexample: running `identify_buyside_liquidity` on `c9klines`
with current price 1000 yields a single zone at level 995 whose strength
0.59 strictly exceeds the strength 0.5 that the source formula
`1 - min(1, distance / (price × 0.01))` assigned to it at creation: the
duplicate-zone merge (`zone.strength = max(zone.strength, strength)`)
raised it while bumping `touched_count`. -/
theorem claim_C9_counterexample :
    identify_buyside_liquidity {} c9klines 1000 =
      [⟨.BUYSIDE, 995, 59 / 100, 2, 1, false, none⟩] ∧
    (1 : ℚ) - min 1 ((1000 - 995) / (1000 * (1 / 100))) = 1 / 2 ∧
    (1 : ℚ) / 2 < 59 / 100 := by
  refine ⟨?_, by norm_num, by norm_num⟩
  rw [identify_buyside_liquidity, c9swingLows]
  norm_num [buysideZonesLoop, mergeBuysideZone, List.enum, List.mergeSort,
    LiquidityAnalysisConfig.liquidity_threshold, abs_lt]

/-- C9 (amended): `increment_touch` replaces strength by
`min(1, strength × 0.8)`, which for a zone of nonnegative strength is
non-increasing across any sequence of `increment_touch` calls; the
liquidity analyzer's duplicate-zone merge, however, assigns
`max(existing strength, new strength)` and can increase a zone's
strength. -/
theorem claim_C9_amended :
    (∀ z : LiquidityZone,
       z.increment_touch.strength = min 1 (z.strength * (8 / 10))) ∧
    (∀ z : LiquidityZone, 0 ≤ z.strength →
       z.increment_touch.strength ≤ z.strength) ∧
    (∀ (z : LiquidityZone) (n : ℕ), 0 ≤ z.strength →
       ((LiquidityZone.increment_touch)^[n] z).strength ≤ z.strength) := by
  refine ⟨fun z => rfl, fun z h => increment_touch_le z h, ?_⟩
  intro z n
  induction n generalizing z with
  | zero => intro h; exact le_refl _
  | succ n ih =>
    intro h
    rw [Function.iterate_succ_apply]
    exact le_trans (ih _ (increment_touch_nonneg z h))
      (increment_touch_le z h)

/-- C9 witness: two touches never raise a strength-0.5 zone. -/
theorem claim_C9_witness :
    (0 : ℚ) ≤ (1 / 2 : ℚ) ∧
    ((LiquidityZone.increment_touch)^[2]
        ⟨.BUYSIDE, 1000, 1 / 2, 0, 0, false, none⟩).strength ≤ 1 / 2 :=
  ⟨by norm_num,
   claim_C9_amended.2.2 ⟨.BUYSIDE, 1000, 1 / 2, 0, 0, false, none⟩ 2
     (by norm_num)⟩

/-- C6 (code evaluated at the failing input): on any analyses map holding
a valid analysis with one signal, `detect_confluence` raises
`AttributeError` at `s.direction` instead of computing weighted scores; it
still returns `None` on an empty map; and the helper
`_calculate_weighted_score`, when actually given `(timeframe, signal)`
pairs, does compute `Σ(confidence × weight) / Σ(weight)` — for confidences
0.8 / 0.9 on timeframes 15m / 1h (weights 2 / 3) that is 0.86. -/
theorem claim_C6_code_bug :
    detect_confluence [("5m", c6analysis)] =
      .error (.attributeError "direction") ∧
    detect_confluence [] = .ok none ∧
    calculate_weighted_score
      [("15m", { c6sig with confidence := 8 / 10, timeframe := "15m" }),
       ("1h", { c6sig with confidence := 9 / 10, timeframe := "1h" })]
      = (8 / 10 * 2 + 9 / 10 * 3) / (2 + 3) ∧
    ((8 : ℚ) / 10 * 2 + 9 / 10 * 3) / (2 + 3) = 43 / 50 := by
  refine ⟨?_, ?_, ?_, by norm_num⟩
  · simp [detect_confluence, c6analysis, c6sig, pyFilterByDirection,
      FVGSignal.direction, Bind.bind, Except.bind, pure, Except.pure]
  · simp [detect_confluence, pure, Except.pure]
  · norm_num [calculate_weighted_score, weightOf_15m, weightOf_1h]

/-- C1 counterexample: `c1st` — the state after three `update_pnl(-10)`
calls with `max_consecutive_losses = 3` — is TRIGGERED with trigger time 0,
more than 30 minutes have elapsed at time 1860001 ms, yet the next
`is_allowed_to_trade` call returns `(False, consecutive-loss reason)`
rather than the claimed `(True, 允许交易)`: the auto-reset does not clear
the consecutive-loss streak, which still blocks trading. -/
theorem claim_C1_counterexample :
    c1st.circuit_breaker_state = .TRIGGERED ∧
    c1st.circuit_breaker_time = some 0 ∧
    (30 * 60 * 1000 : ℤ) < 1860001 - 0 ∧
    (is_allowed_to_trade c1cfg 1860001 c1st).2 =
      (false, .consecutive_loss_reached 3) := by
  refine ⟨?_, ?_, by norm_num, ?_⟩ <;>
    norm_num [c1st, c1cfg, update_pnl, update_pnl_streaks, initRiskManager,
      peakEquity, check_circuit_breaker, trigger_circuit_breaker,
      is_allowed_to_trade, allowed_after_breaker, reset_circuit_breaker]

/-- C1 (amended): after three consecutive `update_pnl(-10)` calls with
`max_consecutive_losses = 3`, `is_allowed_to_trade` returns
`(False, reason)` while the cooldown runs; and for any TRIGGERED state
with more than 30 minutes elapsed since the trigger time (and a positive
daily-loss limit), the next `is_allowed_to_trade` call auto-resets the
breaker to NORMAL but returns `(True, 允许交易)` if and only if the
consecutive-loss count is below `max_consecutive_losses` — otherwise it
returns the consecutive-loss block despite the reset. -/
theorem claim_C1_amended :
    ((is_allowed_to_trade c1cfg 60000 c1st).2.1 = false ∧
     c1st.metrics.consecutive_losses = 3) ∧
    (∀ (cfg : RiskConfig) (st : RiskManagerState) (now cbt : ℤ),
       0 < cfg.daily_loss_limit →
       st.circuit_breaker_state = .TRIGGERED →
       st.circuit_breaker_time = some cbt →
       30 * 60 * 1000 < now - cbt →
       (is_allowed_to_trade cfg now st).1.circuit_breaker_state = .NORMAL ∧
       ((is_allowed_to_trade cfg now st).2.1 = true ↔
         st.metrics.consecutive_losses < cfg.max_consecutive_losses) ∧
       (st.metrics.consecutive_losses < cfg.max_consecutive_losses →
         (is_allowed_to_trade cfg now st).2 = (true, .allowed))) := by
  constructor
  · constructor <;>
      norm_num [c1st, c1cfg, update_pnl, update_pnl_streaks, initRiskManager,
        peakEquity, check_circuit_breaker, trigger_circuit_breaker,
        is_allowed_to_trade, allowed_after_breaker, reset_circuit_breaker]
  · intro cfg st now cbt hpos htrig hcbt hel
    have hmain : is_allowed_to_trade cfg now st =
        allowed_after_breaker cfg (reset_circuit_breaker now st) := by
      simp only [is_allowed_to_trade, htrig, hcbt]
      rw [if_pos trivial, if_pos hel]
    have h0 : ¬((reset_circuit_breaker now st).daily_pnl ≤
        -cfg.daily_loss_limit) := by
      show ¬((0 : ℚ) ≤ -cfg.daily_loss_limit)
      linarith
    rw [hmain]
    unfold allowed_after_breaker
    rw [if_neg h0]
    by_cases hc : cfg.max_consecutive_losses ≤
        (reset_circuit_breaker now st).metrics.consecutive_losses
    · rw [if_pos hc]
      exact ⟨rfl, iff_of_false (by simp) (not_lt.mpr hc),
        fun hh => absurd hh (not_lt.mpr hc)⟩
    · rw [if_neg hc]
      exact ⟨rfl, iff_of_true rfl (not_le.mp hc), fun _ => rfl⟩

/-- C1 witness: the amended statement instantiated at the three-loss
scenario state (where the streak is 3, so the post-cooldown call resets
the breaker but does not allow trading). -/
theorem claim_C1_witness :
    (is_allowed_to_trade c1cfg 1860001 c1st).1.circuit_breaker_state
      = .NORMAL ∧
    ((is_allowed_to_trade c1cfg 1860001 c1st).2.1 = true ↔
      c1st.metrics.consecutive_losses < c1cfg.max_consecutive_losses) ∧
    (c1st.metrics.consecutive_losses < c1cfg.max_consecutive_losses →
      (is_allowed_to_trade c1cfg 1860001 c1st).2 = (true, .allowed)) :=
  claim_C1_amended.2 c1cfg c1st 1860001 0 (by norm_num [c1cfg])
    (by norm_num [c1st, c1cfg, update_pnl, update_pnl_streaks,
      initRiskManager, peakEquity, check_circuit_breaker,
      trigger_circuit_breaker])
    (by norm_num [c1st, c1cfg, update_pnl, update_pnl_streaks,
      initRiskManager, peakEquity, check_circuit_breaker,
      trigger_circuit_breaker])
    (by norm_num)

end Daihao
